import Mathlib

set_option maxRecDepth 8000

/-
  Verification development for src/httpfilter/httpfilterconsole.cpp.

  The program intercepts outbound TCP packets, classifies the payload as an
  HTTP request whose Host header matches a configured target, and on a match
  forges three packets (RST to the server, a 302 redirect to the client, FIN
  to the client).

  Modelling conventions:
  - C byte buffers are modelled as lists of natural numbers (byte values);
    machine integers are naturals with explicit mod 2^16 or mod 2^32 at the
    places where the C code truncates (htons of an int, UINT32 arithmetic).
  - The streaming HTTP parser (http_parser.h) is an external library that is
    not part of this repository; it is modelled from the spec as a function
    from a payload to the stream of callback events it fires.
  - The classifier callbacks, the global classifier state, the packet
    templates, the stamping of per-connection fields and the order of
    stamping, checksum computation and sending are translated directly from
    the source.
-/

/-- A byte string, as the list of its byte values. -/
abbrev Bytes := List Nat

/-- Byte values of a Lean string literal (ASCII in all uses below). -/
def strB (s : String) : Bytes := s.data.map Char.toNat

/-- ASCII lowercasing of one byte, as performed by the C runtime tolower on
ASCII input; this is the per-byte operation underlying _stricmp and
_strnicmp in the source. -/
def lcB (n : Nat) : Nat := if 65 ≤ n ∧ n ≤ 90 then n + 32 else n

/-- Case-insensitive byte string equality: the relation decided by
_stricmp(a, b) == 0 (httpfilterconsole.cpp:283). -/
def striCmpEq (a b : Bytes) : Bool := a.map lcB == b.map lcB

/-- The test _strnicmp(at, "host", 4) == 0 performed by the header-field
callback (httpfilterconsole.cpp:58).  The pointer at aims into the payload
buffer at the start of the field name, whose terminator in the buffer is the
colon byte 58; comparing the first four bytes of name ++ [58] therefore
gives the verdict of the C comparison for every field name.  Note the C code
compares only four bytes, so any field name whose first four letters are
host (case-insensitively) passes, for example Hostname. -/
def isHostField (name : Bytes) : Bool :=
  ((name ++ [58]).take 4).map lcB == [104, 111, 115, 116]

/-- The process-wide mutable classifier state: the globals
temp_header_complete, temp_is_hostheader and temp_host
(httpfilterconsole.cpp:22-24).  temp_host holds a C string; it is modelled
as the byte list readable up to the first NUL. -/
structure ClassifierState where
  temp_header_complete : Bool
  temp_is_hostheader : Bool
  temp_host : Bytes

/-- The classifier state at process start (globals zero-initialised). -/
def initClassifier : ClassifierState := ⟨false, false, []⟩

/-- my_url_callback (httpfilterconsole.cpp:51-54): ignores its data. -/
def my_url_callback (s : ClassifierState) (_at : Bytes) : ClassifierState := s

/-- my_header_field_callback (httpfilterconsole.cpp:56-63). -/
def my_header_field_callback (s : ClassifierState) (at_ : Bytes) : ClassifierState :=
  if isHostField at_ then { s with temp_is_hostheader := true }
  else { s with temp_is_hostheader := false }

/-- my_header_value_callback (httpfilterconsole.cpp:65-75): when the current
field is a host field, captures the value truncated to 1023 bytes and clears
the flag. -/
def my_header_value_callback (s : ClassifierState) (at_ : Bytes) : ClassifierState :=
  if s.temp_is_hostheader then
    { s with temp_host := at_.take 1023, temp_is_hostheader := false }
  else s

/-- my_headers_complete_callback (httpfilterconsole.cpp:77-81). -/
def my_headers_complete_callback (s : ClassifierState) : ClassifierState :=
  { s with temp_header_complete := true }

/-- The callback events the external streaming parser can fire for the
settings installed in HttpRequestPayloadMatch (httpfilterconsole.cpp:272-275). -/
inductive HttpEvent where
  | url (at_ : Bytes)
  | headerField (at_ : Bytes)
  | headerValue (at_ : Bytes)
  | headersComplete
deriving DecidableEq

/-- Dispatch of one parser event to the installed callback. -/
def callbackStep (s : ClassifierState) : HttpEvent → ClassifierState
  | .url a => my_url_callback s a
  | .headerField a => my_header_field_callback s a
  | .headerValue a => my_header_value_callback s a
  | .headersComplete => my_headers_complete_callback s

/-- Folding a stream of parser events through the callbacks. -/
def runCallbacks (s : ClassifierState) (es : List HttpEvent) : ClassifierState :=
  es.foldl callbackStep s

/-- Splits off the first CRLF-terminated line: returns the bytes before the
first 13,10 pair and the bytes after it, or none when the input ends before a
CRLF (a truncated segment). -/
def takeLine : Bytes → Option (Bytes × Bytes)
  | [] => none
  | c :: rest =>
    if c = 13 ∧ rest.take 1 = [10] then some ([], rest.drop 1)
    else (takeLine rest).map (fun p => (c :: p.1, p.2))

/-- Splits a header line at its first colon (byte 58). -/
def splitColon : Bytes → Option (Bytes × Bytes)
  | [] => none
  | c :: rest =>
    if c = 58 then some ([], rest)
    else (splitColon rest).map (fun p => (c :: p.1, p.2))

/-- Drops leading space bytes, as the parser does before a header value. -/
def dropSpaces : Bytes → Bytes
  | [] => []
  | c :: rest => if c = 32 then dropSpaces rest else c :: rest

/-- Modelled from the spec: the header-line phase of the external streaming
request parser (http_parser.h, not part of this repository).  Each line
name : value fires a header-field event for the name and a header-value
event for the value with leading spaces removed; the empty line fires the
headers-complete event; a truncated or malformed remainder fires nothing
further, so headers-complete never fires for it.  Fuel bounds the recursion;
one unit per line always suffices for real inputs. -/
def parseHeadersAux : Nat → Bytes → List HttpEvent
  | 0, _ => []
  | fuel + 1, input =>
    match takeLine input with
    | none => []
    | some lr =>
      if lr.1 = [] then [HttpEvent.headersComplete]
      else
        match splitColon lr.1 with
        | none => []
        | some nv =>
          HttpEvent.headerField nv.1 :: HttpEvent.headerValue (dropSpaces nv.2) ::
            parseHeadersAux fuel lr.2

/-- Modelled from the spec: the external streaming request parser, as the
stream of callback events it fires on one payload.  It consumes the
CRLF-terminated request line (firing the url event, whose callback ignores
its data), then the header lines; a payload whose request line never ends
fires no events and never completes. -/
def http_parser_execute (payload : Bytes) : List HttpEvent :=
  match takeLine payload with
  | none => []
  | some rl => HttpEvent.url rl.1 :: parseHeadersAux (rl.2.length + 1) rl.2

/-- HttpRequestPayloadMatch (httpfilterconsole.cpp:266-291).  Takes the
incoming global classifier state g, resets all three per-call globals
(lines 277-279), runs the parser with the installed callbacks, and returns
the final global state together with the match verdict of lines 282-290:
true exactly when temp_header_complete was set and
_stricmp(target_url, temp_host) == 0.  The function is total: every parser
or classification failure yields the verdict false. -/
def HttpRequestPayloadMatch (g : ClassifierState) (data : Bytes) (target_url : Bytes) :
    ClassifierState × Bool :=
  let s0 : ClassifierState :=
    { g with temp_header_complete := false, temp_is_hostheader := false, temp_host := [] }
  let s := runCallbacks s0 (http_parser_execute data)
  (s, s.temp_header_complete && striCmpEq target_url s.temp_host)

/-- The classifier contract Matches(payload, targetHost) of the spec, on byte
strings: HttpRequestPayloadMatch run from the initial global state. -/
def MatchesB (payload target : Bytes) : Bool :=
  (HttpRequestPayloadMatch initClassifier payload target).2

/-- Matches on string literals, for concrete scenarios. -/
def Matches (payload target : String) : Bool := MatchesB (strB payload) (strB target)

/-- A structured HTTP request: a request line and a list of name-value
header pairs.  Rendered with renderRequest it produces the class of
well-formed single-segment payloads the claims quantify over. -/
structure HttpRequest where
  requestLine : Bytes
  headers : List (Bytes × Bytes)

/-- Renders header pairs as name : SP value CRLF lines. -/
def renderHeaders : List (Bytes × Bytes) → Bytes
  | [] => []
  | p :: t => p.1 ++ 58 :: 32 :: p.2 ++ 13 :: 10 :: renderHeaders t

/-- Renders a full request: request line CRLF, header lines, empty line. -/
def renderRequest (r : HttpRequest) : Bytes :=
  r.requestLine ++ 13 :: 10 :: renderHeaders r.headers ++ [13, 10]

/-- The event stream belonging to a header list: field and value events in
order. -/
def headerEvents : List (Bytes × Bytes) → List HttpEvent
  | [] => []
  | p :: t => HttpEvent.headerField p.1 :: HttpEvent.headerValue p.2 :: headerEvents t

/-- Bytes legal inside one rendered line: no CR, no LF. -/
def lineBytesOK (l : Bytes) : Prop := ∀ c ∈ l, c ≠ 13 ∧ c ≠ 10

/-- Well-formedness of one header pair: the name holds no CR, LF or colon,
the value holds no CR or LF and does not begin with a space. -/
def headerOK (p : Bytes × Bytes) : Prop :=
  lineBytesOK p.1 ∧ (∀ c ∈ p.1, c ≠ 58) ∧ lineBytesOK p.2 ∧ p.2.head? ≠ some 32

/-- Well-formedness of a structured request. -/
def requestWF (r : HttpRequest) : Prop :=
  lineBytesOK r.requestLine ∧ ∀ p ∈ r.headers, headerOK p

instance (l : Bytes) : Decidable (lineBytesOK l) := by
  unfold lineBytesOK; infer_instance

instance (p : Bytes × Bytes) : Decidable (headerOK p) := by
  unfold headerOK; infer_instance

instance (r : HttpRequest) : Decidable (requestWF r) := by
  unfold requestWF; infer_instance

/-- One header pair acting on the captured-host buffer: a host field
overwrites the buffer with its value truncated to 1023 bytes. -/
def updateHost (h : Bytes) (p : Bytes × Bytes) : Bytes :=
  if isHostField p.1 then p.2.take 1023 else h

/-- The host value the classifier captures from a well-formed request: the
value, truncated to 1023 bytes, of the last header field whose name passes
isHostField, or the empty string when there is none. -/
def capturedHost (hs : List (Bytes × Bytes)) : Bytes :=
  ((hs.filter (fun p => isHostField p.1)).getLast?).elim [] (fun p => p.2.take 1023)

/-- WINDIVERT_IPHDR, restricted to the fields the program reads or writes.
Field values are host-order naturals; the byte-order conversions htons and
htonl of the source are representation changes and are modelled as the
identity on values, with the 16-bit and 32-bit truncations kept explicit. -/
structure WINDIVERT_IPHDR where
  HdrLength : Nat
  Version : Nat
  Length : Nat
  TTL : Nat
  Protocol : Nat
  Checksum : Nat
  SrcAddr : Nat
  DstAddr : Nat

/-- WINDIVERT_TCPHDR, restricted to the fields the program reads or writes. -/
structure WINDIVERT_TCPHDR where
  SrcPort : Nat
  DstPort : Nat
  SeqNum : Nat
  AckNum : Nat
  HdrLength : Nat
  Fin : Nat
  Rst : Nat
  Psh : Nat
  Ack : Nat
  Checksum : Nat

/-- The PACKET template struct (httpfilterconsole.cpp:32-36): an IPv4 header
followed by a TCP header, 40 bytes in total. -/
structure PACKET where
  ip : WINDIVERT_IPHDR
  tcp : WINDIVERT_TCPHDR

/-- The DATAPACKET struct (httpfilterconsole.cpp:37-41): a PACKET header
followed by payload bytes.  sizeof(DATAPACKET) = sizeof(PACKET) = 40 because
data is a flexible array member. -/
structure DATAPACKET where
  header : PACKET
  data : Bytes

/-- PacketInit (httpfilterconsole.cpp:254-263): zeroed headers with IPv4
version 4, header length 5 words, total length 40, TTL 64, protocol TCP,
TCP header length 5 words. -/
def PacketInit : PACKET :=
  { ip := { HdrLength := 5, Version := 4, Length := 40, TTL := 64, Protocol := 6,
            Checksum := 0, SrcAddr := 0, DstAddr := 0 },
    tcp := { SrcPort := 0, DstPort := 0, SeqNum := 0, AckNum := 0, HdrLength := 5,
             Fin := 0, Rst := 0, Psh := 0, Ack := 0, Checksum := 0 } }

/-- The redirect response text built at startup (httpfilterconsole.cpp:124-128)
for a given replacement host: three strcat calls onto an empty buffer.  The
model is faithful only for hosts of at most 1023 bytes: a longer argv entry
already overflows the 1024-byte new_host_url global in the strcpy at line
111 (and, past 1908 bytes, the 2048-byte malloc of line 124), which is
undefined behavior in the source, so such hosts lie outside the domain of
this definition and every theorem below about it carries the 1023-byte
bound. -/
def responseData (new_host_url : Bytes) : Bytes :=
  strB "HTTP/1.1 302 Found\r\nContent-Type: text/html; charset=utf-8\r\nLocation: http://" ++
    new_host_url ++
    strB "\r\nDate: Mon, 09 Jul 2018 06:27:33 GMT\r\nContent-Length:3\r\n\r\n302"

/-- blockpage_len (httpfilterconsole.cpp:131): a UINT16, so the sum of the
40-byte header and the response length is truncated mod 2^16. -/
def blockpage_len (resp : Bytes) : Nat := (40 + resp.length) % 65536

/-- The blockpage template (httpfilterconsole.cpp:138-143): PacketInit, then
total length, source port htons(port), PSH and ACK flags, and the response
bytes copied in. -/
def mkBlockpage (port : Nat) (resp : Bytes) : DATAPACKET :=
  { header :=
      { PacketInit with
          ip.Length := blockpage_len resp,
          tcp.SrcPort := port % 65536,
          tcp.Psh := 1,
          tcp.Ack := 1 },
    data := resp }

/-- The reset template (httpfilterconsole.cpp:144-146): RST and ACK set. -/
def mkReset : PACKET := { PacketInit with tcp.Rst := 1, tcp.Ack := 1 }

/-- The finish template (httpfilterconsole.cpp:147-149): FIN and ACK set. -/
def mkFinish : PACKET := { PacketInit with tcp.Fin := 1, tcp.Ack := 1 }

/-- What the program reads from one intercepted client-to-server packet:
ip_header SrcAddr and DstAddr, tcp_header SrcPort, SeqNum, AckNum, and the
payload length.  For an outbound request SrcAddr is the client address,
DstAddr the server address, SrcPort the client port. -/
structure Observation where
  SrcAddr : Nat
  DstAddr : Nat
  SrcPort : Nat
  SeqNum : Nat
  AckNum : Nat
  payload_len : Nat

/-- Stamping of the reset packet (httpfilterconsole.cpp:206-211): addresses
and client port copied from the observation, destination port htons(port),
sequence and acknowledgment numbers copied raw. -/
def stampReset (r : PACKET) (ob : Observation) (port : Nat) : PACKET :=
  { r with
      ip.SrcAddr := ob.SrcAddr,
      ip.DstAddr := ob.DstAddr,
      tcp.SrcPort := ob.SrcPort,
      tcp.DstPort := port % 65536,
      tcp.SeqNum := ob.SeqNum,
      tcp.AckNum := ob.AckNum }

/-- Stamping of the blockpage packet (httpfilterconsole.cpp:220-225):
addresses reversed, destination port the client port, sequence number the
observed acknowledgment number, acknowledgment number
htonl(ntohl(SeqNum) + payload_len), a 32-bit sum.  The source port is not
written here: it keeps the value htons(port) given at template build. -/
def stampBlockpage (bp : DATAPACKET) (ob : Observation) : DATAPACKET :=
  { bp with
      header.ip.SrcAddr := ob.DstAddr,
      header.ip.DstAddr := ob.SrcAddr,
      header.tcp.DstPort := ob.SrcPort,
      header.tcp.SeqNum := ob.AckNum,
      header.tcp.AckNum := (ob.SeqNum + ob.payload_len) % 4294967296 }

/-- Stamping of the finish packet (httpfilterconsole.cpp:237-244): addresses
reversed, source port htons(port), destination port the client port,
sequence number htonl(ntohl(AckNum) + strlen(responseData)), acknowledgment
number htonl(ntohl(SeqNum) + payload_len). -/
def stampFinish (f : PACKET) (ob : Observation) (port : Nat) (respLen : Nat) : PACKET :=
  { f with
      ip.SrcAddr := ob.DstAddr,
      ip.DstAddr := ob.SrcAddr,
      tcp.SrcPort := port % 65536,
      tcp.DstPort := ob.SrcPort,
      tcp.SeqNum := (ob.AckNum + respLen) % 4294967296,
      tcp.AckNum := (ob.SeqNum + ob.payload_len) % 4294967296 }

/-- A packet with its checksum fields cleared: the content over which the
external checksum capability computes. -/
def zeroChecksums (p : PACKET) : PACKET :=
  { p with ip.Checksum := 0, tcp.Checksum := 0 }

/-- WinDivertHelperCalcChecksums on a packet and its payload, for abstract
checksum functions Hip and Htcp of the external transport capability: it
overwrites both checksum fields with values computed from the final header
and payload content (checksum fields cleared). -/
def WinDivertHelperCalcChecksums (Hip Htcp : PACKET → Bytes → Nat)
    (p : PACKET) (data : Bytes) : PACKET :=
  { p with
      ip.Checksum := Hip (zeroChecksums p) data,
      tcp.Checksum := Htcp (zeroChecksums p) data }

/-- One packet as handed to WinDivertSend: header plus payload bytes. -/
structure SentPacket where
  packet : PACKET
  data : Bytes

/-- The match path of the interception loop (httpfilterconsole.cpp:206-250),
in source order: stamp the reset, compute its checksums, send it; stamp the
blockpage, compute its checksums over header plus payload, send it; stamp
the finish (sequence number advanced by strlen(responseData)), compute its
checksums, send it.  There is no length or MTU check anywhere on this path:
all three sends are attempted unconditionally, and a send failure is only
logged.  Returns the three packets in the order they are handed to
WinDivertSend. -/
def hijackSends (Hip Htcp : PACKET → Bytes → Nat) (reset : PACKET)
    (blockpage : DATAPACKET) (finish : PACKET) (ob : Observation) (port : Nat)
    (resp : Bytes) : SentPacket × SentPacket × SentPacket :=
  let r := stampReset reset ob port
  let r := WinDivertHelperCalcChecksums Hip Htcp r []
  let b := stampBlockpage blockpage ob
  let bh := WinDivertHelperCalcChecksums Hip Htcp b.header b.data
  let f := stampFinish finish ob port resp.length
  let f := WinDivertHelperCalcChecksums Hip Htcp f []
  (⟨r, []⟩, ⟨bh, b.data⟩, ⟨f, []⟩)

/-- Splits a byte string at the first CRLFCRLF blank line: the HTTP header
section and the body.  none when no blank line occurs. -/
def splitBlank : Bytes → Option (Bytes × Bytes)
  | [] => none
  | c :: rest =>
    if c = 13 ∧ rest.take 3 = [10, 13, 10] then some ([], rest.drop 3)
    else (splitBlank rest).map (fun p => (c :: p.1, p.2))

/-- The HTTP body of a message: the bytes after the first blank line, or
empty when the header section never ends. -/
def httpBody (s : Bytes) : Bytes :=
  match splitBlank s with
  | none => []
  | some p => p.2

/-- Case-insensitive prefix test on byte strings. -/
def startsWithCI (pat l : Bytes) : Bool :=
  (l.take pat.length).map lcB == pat.map lcB

/-- The bytes up to the next CR: the value part of a header line. -/
def upToCR : Bytes → Bytes
  | [] => []
  | c :: rest => if c = 13 then [] else c :: upToCR rest

/-- Finds the first case-insensitive occurrence of pat and returns the bytes
after it up to the next CR. -/
def findHeaderValue (pat : Bytes) : Bytes → Option Bytes
  | [] => none
  | c :: rest =>
    if startsWithCI pat (c :: rest) then some (upToCR ((c :: rest).drop pat.length))
    else findHeaderValue pat rest

/-- The start of a Content-Length header line, lowercase: CRLF then
content-length then a colon. -/
def clPat : Bytes := 13 :: 10 :: strB "content-length:"

/-- Decimal number literal parsing for a header value. -/
def parseNatOpt (l : Bytes) : Option Nat :=
  if l ≠ [] ∧ l.all (fun c => 48 ≤ c ∧ c ≤ 57) then
    some (l.foldl (fun a c => a * 10 + (c - 48)) 0)
  else none

/-- The Content-Length a message declares: the decimal value of the first
Content-Length header line, found case-insensitively. -/
def declaredContentLength (s : Bytes) : Option Nat :=
  (findHeaderValue clPat s).bind (fun v => parseNatOpt (dropSpaces v))

/-! Helper lemmas about the classifier and the parser model. -/

lemma lcB_ne_13 {c : Nat} (h : c ≠ 13) : lcB c ≠ 13 := by
  simp only [lcB]; split <;> omega

lemma takeLine_cons_ne {c : Nat} (l : Bytes) (hc : c ≠ 13) :
    takeLine (c :: l) = (takeLine l).map (fun p => (c :: p.1, p.2)) := by
  simp [takeLine, hc]

lemma takeLine_append (l1 l2 : Bytes) (h : ∀ c ∈ l1, c ≠ 13) :
    takeLine (l1 ++ 13 :: 10 :: l2) = some (l1, l2) := by
  induction l1 with
  | nil => simp [takeLine]
  | cons c t ih =>
    rw [List.cons_append, takeLine_cons_ne _ (h c (List.mem_cons_self c t)),
      ih (fun x hx => h x (List.mem_cons_of_mem c hx))]
    rfl

lemma splitColon_cons_ne {c : Nat} (l : Bytes) (hc : c ≠ 58) :
    splitColon (c :: l) = (splitColon l).map (fun p => (c :: p.1, p.2)) := by
  simp [splitColon, hc]

lemma splitColon_append (l1 l2 : Bytes) (h : ∀ c ∈ l1, c ≠ 58) :
    splitColon (l1 ++ 58 :: l2) = some (l1, l2) := by
  induction l1 with
  | nil => simp [splitColon]
  | cons c t ih =>
    rw [List.cons_append, splitColon_cons_ne _ (h c (List.mem_cons_self c t)),
      ih (fun x hx => h x (List.mem_cons_of_mem c hx))]
    rfl

lemma dropSpaces_no_space (l : Bytes) (h : l.head? ≠ some 32) : dropSpaces l = l := by
  cases l with
  | nil => rfl
  | cons c t =>
    have hc : c ≠ 32 := by simpa using h
    simp [dropSpaces, hc]

lemma parseHeadersAux_renderHeaders (hs : List (Bytes × Bytes)) (fuel : Nat)
    (hwf : ∀ p ∈ hs, headerOK p) (hfuel : (renderHeaders hs).length + 1 ≤ fuel) :
    parseHeadersAux fuel (renderHeaders hs ++ [13, 10]) =
      headerEvents hs ++ [HttpEvent.headersComplete] := by
  induction hs generalizing fuel with
  | nil =>
    obtain ⟨f, rfl⟩ : ∃ f, fuel = f + 1 := ⟨fuel - 1, by omega⟩
    simp [renderHeaders, parseHeadersAux, takeLine, headerEvents]
  | cons p t ih =>
    obtain ⟨f, rfl⟩ : ∃ f, fuel = f + 1 := ⟨fuel - 1, by omega⟩
    obtain ⟨h1, h2, h3, h4⟩ := hwf p (List.mem_cons_self p t)
    have hshape : renderHeaders (p :: t) ++ [13, 10] =
        (p.1 ++ 58 :: 32 :: p.2) ++ 13 :: 10 :: (renderHeaders t ++ [13, 10]) := by
      simp [renderHeaders]
    have hno13 : ∀ c ∈ p.1 ++ 58 :: 32 :: p.2, c ≠ 13 := by
      intro c hcm
      simp only [List.mem_append, List.mem_cons] at hcm
      rcases hcm with hc | rfl | rfl | hc
      · exact (h1 c hc).1
      · decide
      · decide
      · exact (h3 c hc).1
    have hne : p.1 ++ 58 :: 32 :: p.2 ≠ [] := by simp
    have hlen : (renderHeaders t).length + 1 ≤ f := by
      have : (renderHeaders (p :: t)).length =
          p.1.length + (2 + (p.2.length + (2 + (renderHeaders t).length))) := by
        simp [renderHeaders]; omega
      omega
    rw [hshape]
    simp only [parseHeadersAux]
    rw [takeLine_append _ _ hno13]
    simp only [if_neg hne]
    rw [splitColon_append _ _ h2]
    simp only []
    rw [show dropSpaces (32 :: p.2) = dropSpaces p.2 from by simp [dropSpaces],
      dropSpaces_no_space _ h4,
      ih f (fun q hq => hwf q (List.mem_cons_of_mem p hq)) hlen]
    simp [headerEvents]

lemma http_parser_execute_render (r : HttpRequest) (h : requestWF r) :
    http_parser_execute (renderRequest r) =
      HttpEvent.url r.requestLine ::
        (headerEvents r.headers ++ [HttpEvent.headersComplete]) := by
  obtain ⟨h1, h2⟩ := h
  have hshape : renderRequest r =
      r.requestLine ++ 13 :: 10 :: (renderHeaders r.headers ++ [13, 10]) := by
    simp [renderRequest]
  rw [hshape]
  simp only [http_parser_execute]
  rw [takeLine_append _ _ (fun c hc => (h1 c hc).1)]
  simp only []
  rw [parseHeadersAux_renderHeaders r.headers _ h2 (by simp)]

lemma runCallbacks_append (s : ClassifierState) (a b : List HttpEvent) :
    runCallbacks s (a ++ b) = runCallbacks (runCallbacks s a) b := by
  simp [runCallbacks, List.foldl_append]

lemma runCallbacks_headerEvents (s : ClassifierState) (hs : List (Bytes × Bytes))
    (hflag : s.temp_is_hostheader = false) :
    runCallbacks s (headerEvents hs) =
      ⟨s.temp_header_complete, false, hs.foldl updateHost s.temp_host⟩ := by
  induction hs generalizing s with
  | nil => rw [← hflag]; rfl
  | cons p t ih =>
    have hstep : runCallbacks s (headerEvents (p :: t)) =
        runCallbacks
          (callbackStep (callbackStep s (HttpEvent.headerField p.1))
            (HttpEvent.headerValue p.2)) (headerEvents t) := rfl
    rw [hstep]
    by_cases hp : isHostField p.1
    · have hs2 : callbackStep (callbackStep s (HttpEvent.headerField p.1))
          (HttpEvent.headerValue p.2) =
          ⟨s.temp_header_complete, false, p.2.take 1023⟩ := by
        simp [callbackStep, my_header_field_callback, my_header_value_callback, hp]
      rw [hs2, ih _ rfl]
      simp [List.foldl_cons, updateHost, hp]
    · have hs2 : callbackStep (callbackStep s (HttpEvent.headerField p.1))
          (HttpEvent.headerValue p.2) =
          ⟨s.temp_header_complete, false, s.temp_host⟩ := by
        simp [callbackStep, my_header_field_callback, my_header_value_callback, hp]
      rw [hs2, ih _ rfl]
      simp [List.foldl_cons, updateHost, hp]

lemma callbackStep_complete (s : ClassifierState) (e : HttpEvent)
    (he : e ≠ HttpEvent.headersComplete) :
    (callbackStep s e).temp_header_complete = s.temp_header_complete := by
  cases e with
  | url a => rfl
  | headerField a =>
    simp only [callbackStep, my_header_field_callback]
    split <;> rfl
  | headerValue a =>
    simp only [callbackStep, my_header_value_callback]
    split <;> rfl
  | headersComplete => exact absurd rfl he

lemma runCallbacks_no_complete (es : List HttpEvent) (s : ClassifierState)
    (h : HttpEvent.headersComplete ∉ es) :
    (runCallbacks s es).temp_header_complete = s.temp_header_complete := by
  induction es generalizing s with
  | nil => rfl
  | cons e t ih =>
    have he : e ≠ HttpEvent.headersComplete := by
      intro hh; exact h (hh ▸ List.mem_cons_self e t)
    have ht : HttpEvent.headersComplete ∉ t := fun hm => h (List.mem_cons_of_mem e hm)
    rw [show runCallbacks s (e :: t) = runCallbacks (callbackStep s e) t from rfl,
      ih _ ht, callbackStep_complete s e he]

lemma foldl_updateHost_general (hs : List (Bytes × Bytes)) (a : Bytes) :
    hs.foldl updateHost a =
      ((hs.filter (fun p => isHostField p.1)).getLast?).elim a (fun p => p.2.take 1023) := by
  induction hs using List.reverseRecOn with
  | nil => rfl
  | append_singleton t p ih =>
    rw [List.foldl_append, List.filter_append]
    by_cases hp : isHostField p.1
    · simp [List.filter_cons, hp, updateHost, List.getLast?_concat]
    · simp [List.filter_cons, hp, updateHost, ih]

lemma capturedHost_eq_foldl (hs : List (Bytes × Bytes)) :
    hs.foldl updateHost [] = capturedHost hs :=
  foldl_updateHost_general hs []

lemma capturedHost_nil (hs : List (Bytes × Bytes))
    (h : ∀ p ∈ hs, isHostField p.1 = false) : capturedHost hs = [] := by
  unfold capturedHost
  rw [List.filter_eq_nil_iff.mpr (by intro p hp; simp [h p hp])]
  rfl

lemma MatchesB_eq (data target : Bytes) :
    MatchesB data target =
      ((runCallbacks initClassifier (http_parser_execute data)).temp_header_complete &&
        striCmpEq target (runCallbacks initClassifier (http_parser_execute data)).temp_host) :=
  rfl

lemma MatchesB_render (r : HttpRequest) (target : Bytes) (h : requestWF r) :
    MatchesB (renderRequest r) target = striCmpEq target (capturedHost r.headers) := by
  rw [MatchesB_eq, http_parser_execute_render r h]
  rw [show runCallbacks initClassifier
        (HttpEvent.url r.requestLine ::
          (headerEvents r.headers ++ [HttpEvent.headersComplete])) =
      runCallbacks initClassifier
        (headerEvents r.headers ++ [HttpEvent.headersComplete]) from rfl]
  rw [runCallbacks_append, runCallbacks_headerEvents initClassifier r.headers rfl]
  simp only [show initClassifier.temp_header_complete = false from rfl,
    show initClassifier.temp_host = ([] : Bytes) from rfl]
  rw [capturedHost_eq_foldl]
  rfl

/-! Helper lemmas about the redirect template analysis. -/

lemma splitBlank_cons_ne {c : Nat} (l : Bytes) (hc : c ≠ 13) :
    splitBlank (c :: l) = (splitBlank l).map (fun p => (c :: p.1, p.2)) := by
  simp [splitBlank, hc]

lemma splitBlank_append_ne (l1 l2 : Bytes) (h : ∀ c ∈ l1, c ≠ 13) :
    splitBlank (l1 ++ l2) = (splitBlank l2).map (fun p => (l1 ++ p.1, p.2)) := by
  induction l1 with
  | nil => rw [List.nil_append]; cases splitBlank l2 <;> rfl
  | cons c t ih =>
    rw [List.cons_append, splitBlank_cons_ne _ (h c (List.mem_cons_self c t)),
      ih (fun x hx => h x (List.mem_cons_of_mem c hx))]
    cases splitBlank l2 <;> rfl

lemma splitBlank_cons13 (l : Bytes) (hl : l.take 2 ≠ [13, 10]) :
    splitBlank (13 :: 10 :: l) = (splitBlank l).map (fun p => (13 :: 10 :: p.1, p.2)) := by
  cases hsb : splitBlank l <;> simp [splitBlank, hl, hsb]

lemma startsWithCI_cons13_ne (pat l : Bytes) {c : Nat} (hc : c ≠ 13) :
    startsWithCI (13 :: pat) (c :: l) = false := by
  unfold startsWithCI
  rw [beq_eq_false_iff_ne]
  intro heq
  have h1 : lcB c = 13 := by
    have := congrArg (fun x => x.head?) heq
    simpa [lcB] using this
  exact lcB_ne_13 hc h1

lemma findHeaderValue_cons_ne (pat l : Bytes) {c : Nat} (hc : c ≠ 13) :
    findHeaderValue (13 :: pat) (c :: l) = findHeaderValue (13 :: pat) l := by
  simp [findHeaderValue, startsWithCI_cons13_ne pat l hc]

lemma findHeaderValue_append_ne (pat l1 l2 : Bytes) (h : ∀ c ∈ l1, c ≠ 13) :
    findHeaderValue (13 :: pat) (l1 ++ l2) = findHeaderValue (13 :: pat) l2 := by
  induction l1 with
  | nil => rfl
  | cons c t ih =>
    rw [List.cons_append, findHeaderValue_cons_ne _ _ (h c (List.mem_cons_self c t)),
      ih (fun x hx => h x (List.mem_cons_of_mem c hx))]

lemma startsWithCI_1310 (q B r : Bytes) (hlen : q.length ≤ B.length)
    (hmis : (B.take q.length).map lcB ≠ q.map lcB) :
    startsWithCI (13 :: 10 :: q) (13 :: 10 :: (B ++ r)) = false := by
  unfold startsWithCI
  simp only [List.length_cons, List.take_succ_cons, List.map_cons]
  rw [List.take_append_of_le_length hlen]
  rw [beq_eq_false_iff_ne]
  intro heq
  exact hmis (List.cons.inj (List.cons.inj heq).2).2

lemma findHeaderValue_skip (q B r : Bytes) (hlen : q.length ≤ B.length)
    (hmis : (B.take q.length).map lcB ≠ q.map lcB) (hB : ∀ c ∈ B, c ≠ 13) :
    findHeaderValue (13 :: 10 :: q) (13 :: 10 :: (B ++ r)) =
      findHeaderValue (13 :: 10 :: q) r := by
  have h0 := startsWithCI_1310 q B r hlen hmis
  have h2 : startsWithCI (13 :: 10 :: q) (10 :: (B ++ r)) = false :=
    startsWithCI_cons13_ne _ _ (by omega)
  simp only [findHeaderValue, h0, h2, Bool.false_eq_true, if_false]
  exact findHeaderValue_append_ne _ _ _ hB

lemma responseData_length (nh : Bytes) : (responseData nh).length = nh.length + 139 := by
  have h1 : (strB "HTTP/1.1 302 Found\r\nContent-Type: text/html; charset=utf-8\r\nLocation: http://").length = 77 := by decide
  have h2 : (strB "\r\nDate: Mon, 09 Jul 2018 06:27:33 GMT\r\nContent-Length:3\r\n\r\n302").length = 62 := by decide
  rw [responseData, List.length_append, List.length_append, h1, h2]
  omega

/-! The claims. -/

/-- Claim C1: for every intercepted client-to-server packet (source address
Cip, destination address Sip, source port Cpt, sequence number S,
acknowledgment number A, payload length L) and configured port P below
2^16, the stamped RST packet has source Cip, destination Sip, source port
Cpt, destination port P, sequence S and acknowledgment A; and the stamped
Redirect packet has source Sip, destination Cip, source port P (kept from
the template built at startup), destination port Cpt, sequence A and
acknowledgment S + L mod 2^32. -/
theorem c1_rst_redirect_stamping (ob : Observation) (port : Nat) (resp : Bytes)
    (hp : port < 65536) :
    ((stampReset mkReset ob port).ip.SrcAddr = ob.SrcAddr ∧
      (stampReset mkReset ob port).ip.DstAddr = ob.DstAddr ∧
      (stampReset mkReset ob port).tcp.SrcPort = ob.SrcPort ∧
      (stampReset mkReset ob port).tcp.DstPort = port ∧
      (stampReset mkReset ob port).tcp.SeqNum = ob.SeqNum ∧
      (stampReset mkReset ob port).tcp.AckNum = ob.AckNum) ∧
    ((stampBlockpage (mkBlockpage port resp) ob).header.ip.SrcAddr = ob.DstAddr ∧
      (stampBlockpage (mkBlockpage port resp) ob).header.ip.DstAddr = ob.SrcAddr ∧
      (stampBlockpage (mkBlockpage port resp) ob).header.tcp.SrcPort = port ∧
      (stampBlockpage (mkBlockpage port resp) ob).header.tcp.DstPort = ob.SrcPort ∧
      (stampBlockpage (mkBlockpage port resp) ob).header.tcp.SeqNum = ob.AckNum ∧
      (stampBlockpage (mkBlockpage port resp) ob).header.tcp.AckNum =
        (ob.SeqNum + ob.payload_len) % 4294967296) := by
  refine ⟨⟨rfl, rfl, rfl, ?_, rfl, rfl⟩, rfl, rfl, ?_, rfl, rfl, rfl⟩ <;>
    simp [stampReset, stampBlockpage, mkBlockpage, Nat.mod_eq_of_lt hp]

/-- Witness for C1 at a concrete observation and port. -/
theorem c1_rst_redirect_stamping_witness :
    (80 : Nat) < 65536 ∧
    (stampReset mkReset ⟨1, 2, 3, 1000, 4000, 50⟩ 80).tcp.DstPort = 80 ∧
    (stampBlockpage (mkBlockpage 80 (responseData (strB "www.example.org")))
        ⟨1, 2, 3, 1000, 4000, 50⟩).header.tcp.AckNum = 1050 := by
  refine ⟨by decide, ?_, ?_⟩
  · exact (c1_rst_redirect_stamping ⟨1, 2, 3, 1000, 4000, 50⟩ 80
      (responseData (strB "www.example.org")) (by decide)).1.2.2.2.1
  · have h := (c1_rst_redirect_stamping ⟨1, 2, 3, 1000, 4000, 50⟩ 80
      (responseData (strB "www.example.org")) (by decide)).2.2.2.2.2.2
    rw [h]; decide

/-- Claim C2: the stamped FIN packet has source Sip, destination Cip, source
port P, destination port Cpt, sequence number equal to the Redirect packet
sequence number (the observed acknowledgment number A) plus the byte length
of the Redirect payload, mod 2^32, and acknowledgment number S + L mod 2^32;
in particular for S = 1000, A = 4000, L = 50 the FIN has sequence
4000 + strlen(responseData) mod 2^32 and acknowledgment 1050. -/
theorem c2_fin_stamping (ob : Observation) (port : Nat) (nh : Bytes)
    (hp : port < 65536) :
    ((stampFinish mkFinish ob port (responseData nh).length).ip.SrcAddr = ob.DstAddr ∧
      (stampFinish mkFinish ob port (responseData nh).length).ip.DstAddr = ob.SrcAddr ∧
      (stampFinish mkFinish ob port (responseData nh).length).tcp.SrcPort = port ∧
      (stampFinish mkFinish ob port (responseData nh).length).tcp.DstPort = ob.SrcPort ∧
      (stampFinish mkFinish ob port (responseData nh).length).tcp.SeqNum =
        ((stampBlockpage (mkBlockpage port (responseData nh)) ob).header.tcp.SeqNum +
          (stampBlockpage (mkBlockpage port (responseData nh)) ob).data.length) %
          4294967296 ∧
      (stampFinish mkFinish ob port (responseData nh).length).tcp.AckNum =
        (ob.SeqNum + ob.payload_len) % 4294967296) ∧
    ((stampFinish mkFinish ⟨ob.SrcAddr, ob.DstAddr, ob.SrcPort, 1000, 4000, 50⟩ port
        (responseData nh).length).tcp.SeqNum =
      (4000 + (responseData nh).length) % 4294967296 ∧
      (stampFinish mkFinish ⟨ob.SrcAddr, ob.DstAddr, ob.SrcPort, 1000, 4000, 50⟩ port
        (responseData nh).length).tcp.AckNum = 1050) := by
  refine ⟨⟨rfl, rfl, ?_, rfl, rfl, rfl⟩, rfl, ?_⟩
  · simp [stampFinish, Nat.mod_eq_of_lt hp]
  · simp [stampFinish]

/-- Witness for C2 at a concrete observation, port and replacement host. -/
theorem c2_fin_stamping_witness :
    (80 : Nat) < 65536 ∧
    (stampFinish mkFinish ⟨1, 2, 3, 1000, 4000, 50⟩ 80
        (responseData (strB "www.example.org")).length).tcp.AckNum = 1050 :=
  ⟨by decide,
    (c2_fin_stamping ⟨1, 2, 3, 1000, 4000, 50⟩ 80 (strB "www.example.org")
      (by decide)).2.2⟩

/-- Claim C6: HttpRequestPayloadMatch resets every per-call global
(temp_header_complete, temp_is_hostheader, temp_host) before parsing, so its
outcome and final state never depend on the incoming global state: a call
from any global state equals a call from the initial state, and the verdict
of a second call after any first call equals the verdict of the same call
from a fresh state. -/
theorem c6_reset_noninterference :
    (∀ (g : ClassifierState) (data target : Bytes),
      HttpRequestPayloadMatch g data target =
        HttpRequestPayloadMatch initClassifier data target) ∧
    (∀ (g : ClassifierState) (d1 t1 d2 t2 : Bytes),
      (HttpRequestPayloadMatch (HttpRequestPayloadMatch g d1 t1).1 d2 t2).2 =
        MatchesB d2 t2) :=
  ⟨fun _ _ _ => rfl, fun _ _ _ _ _ => rfl⟩

/-- Claim C8: on the match path, each of the three forged packets is handed
to Send carrying checksums computed (by the external capability, here two
abstract checksum functions) from exactly the header-plus-payload content
it is sent with: the per-connection stamping happens before the checksum
call, never after. -/
theorem c8_checksums_after_stamping (Hip Htcp : PACKET → Bytes → Nat)
    (reset finish : PACKET) (blockpage : DATAPACKET) (ob : Observation)
    (port : Nat) (resp : Bytes) :
    ((hijackSends Hip Htcp reset blockpage finish ob port resp).1.packet.ip.Checksum =
        Hip (zeroChecksums (hijackSends Hip Htcp reset blockpage finish ob port resp).1.packet)
          (hijackSends Hip Htcp reset blockpage finish ob port resp).1.data ∧
      (hijackSends Hip Htcp reset blockpage finish ob port resp).1.packet.tcp.Checksum =
        Htcp (zeroChecksums (hijackSends Hip Htcp reset blockpage finish ob port resp).1.packet)
          (hijackSends Hip Htcp reset blockpage finish ob port resp).1.data) ∧
    ((hijackSends Hip Htcp reset blockpage finish ob port resp).2.1.packet.ip.Checksum =
        Hip (zeroChecksums (hijackSends Hip Htcp reset blockpage finish ob port resp).2.1.packet)
          (hijackSends Hip Htcp reset blockpage finish ob port resp).2.1.data ∧
      (hijackSends Hip Htcp reset blockpage finish ob port resp).2.1.packet.tcp.Checksum =
        Htcp (zeroChecksums (hijackSends Hip Htcp reset blockpage finish ob port resp).2.1.packet)
          (hijackSends Hip Htcp reset blockpage finish ob port resp).2.1.data) ∧
    ((hijackSends Hip Htcp reset blockpage finish ob port resp).2.2.packet.ip.Checksum =
        Hip (zeroChecksums (hijackSends Hip Htcp reset blockpage finish ob port resp).2.2.packet)
          (hijackSends Hip Htcp reset blockpage finish ob port resp).2.2.data ∧
      (hijackSends Hip Htcp reset blockpage finish ob port resp).2.2.packet.tcp.Checksum =
        Htcp (zeroChecksums (hijackSends Hip Htcp reset blockpage finish ob port resp).2.2.packet)
          (hijackSends Hip Htcp reset blockpage finish ob port resp).2.2.data) :=
  ⟨⟨rfl, rfl⟩, ⟨rfl, rfl⟩, rfl, rfl⟩

/-- Claim C9, amended: the code performs no MTU or length check at all.
Within the domain where the startup copies are in-bounds (replacement host
of at most 1023 bytes) the Redirect packet can reach 40 + 139 + 1023 = 1202
bytes, exceeding a 576-byte path MTU (the classic minimum IPv4 path MTU);
even then the stamped packet is handed to Send with its full payload and an
exact IPv4 total-length field — nothing fails, no fragmentation is
performed. -/
theorem c9_no_mtu_check (Hip Htcp : PACKET → Bytes → Nat) (reset finish : PACKET)
    (ob : Observation) (port : Nat) (nh : Bytes)
    (hin : nh.length ≤ 1023) (_hbig : 576 < 40 + (responseData nh).length) :
    (hijackSends Hip Htcp reset (mkBlockpage port (responseData nh)) finish ob port
        (responseData nh)).2.1.data = responseData nh ∧
    (hijackSends Hip Htcp reset (mkBlockpage port (responseData nh)) finish ob port
        (responseData nh)).2.1.packet.ip.Length = 40 + (responseData nh).length := by
  refine ⟨rfl, ?_⟩
  show blockpage_len (responseData nh) = 40 + (responseData nh).length
  unfold blockpage_len
  exact Nat.mod_eq_of_lt (by rw [responseData_length]; omega)

/-- Claim C3, amended: Matches returns true only if the headers-complete
event fired, and for every well-formed single-segment request the verdict
equals the case-insensitive comparison of the target with the captured host,
which is the value (truncated to 1023 bytes) of the LAST header field whose
name begins with the four letters host case-insensitively — not necessarily
of a field named exactly Host, because the callback compares only four
bytes and a later field such as Hostname overwrites the capture. -/
theorem c3_matches_characterization :
    (∀ (data target : Bytes), MatchesB data target = true →
      HttpEvent.headersComplete ∈ http_parser_execute data) ∧
    (∀ (r : HttpRequest) (target : Bytes), requestWF r →
      MatchesB (renderRequest r) target = striCmpEq target (capturedHost r.headers)) := by
  constructor
  · intro data target hm
    by_contra hnc
    rw [MatchesB_eq, runCallbacks_no_complete _ _ hnc] at hm
    exact Bool.false_ne_true hm
  · exact fun r target h => MatchesB_render r target h

/-- Witness for C3: a well-formed request whose only host field is Host
with a value matching the target case-insensitively is matched. -/
theorem c3_matches_characterization_witness :
    requestWF ⟨strB "GET / HTTP/1.1", [(strB "Host", strB "A")]⟩ ∧
    MatchesB (renderRequest ⟨strB "GET / HTTP/1.1", [(strB "Host", strB "A")]⟩)
      (strB "a") = true := by
  refine ⟨by decide, ?_⟩
  rw [c3_matches_characterization.2 _ _ (by decide)]
  decide

/-- Counterexample to C3 as stated: this payload contains a header field
exactly equal to Host whose value equals the target, its headers complete,
and yet Matches returns false, because the later Hostname field also passes
the four-byte host test and overwrites the captured value. -/
theorem c3_cex :
    HttpEvent.headerField (strB "Host") ∈
      http_parser_execute (strB "GET / HTTP/1.1\r\nHost: a\r\nHostname: b\r\n\r\n") ∧
    HttpEvent.headerValue (strB "a") ∈
      http_parser_execute (strB "GET / HTTP/1.1\r\nHost: a\r\nHostname: b\r\n\r\n") ∧
    HttpEvent.headersComplete ∈
      http_parser_execute (strB "GET / HTTP/1.1\r\nHost: a\r\nHostname: b\r\n\r\n") ∧
    striCmpEq (strB "a") (strB "a") = true ∧
    Matches "GET / HTTP/1.1\r\nHost: a\r\nHostname: b\r\n\r\n" "a" = false := by
  refine ⟨by decide, by decide, by decide, by decide, by decide⟩

/-- Claim C4, amended: for a well-formed request, whenever the captured host
(the value of the last header field whose name begins with host, empty when
there is none) differs case-insensitively from the target, Matches returns
false; in particular a request with no host-prefixed header field at all is
rejected whenever the target is nonempty.  The unamended claim fails when
the target is the empty string (see the counterexample), because an absent
Host header leaves the captured buffer empty and equal to an empty target. -/
theorem c4_no_match_characterization :
    (∀ (r : HttpRequest) (target : Bytes), requestWF r →
      striCmpEq target (capturedHost r.headers) = false →
      MatchesB (renderRequest r) target = false) ∧
    (∀ (r : HttpRequest) (target : Bytes), requestWF r →
      (∀ p ∈ r.headers, isHostField p.1 = false) → target ≠ [] →
      MatchesB (renderRequest r) target = false) := by
  have base : ∀ (r : HttpRequest) (target : Bytes), requestWF r →
      striCmpEq target (capturedHost r.headers) = false →
      MatchesB (renderRequest r) target = false := by
    intro r target hwf hne
    rw [MatchesB_render r target hwf, hne]
  refine ⟨base, fun r target hwf hnone hts => base r target hwf ?_⟩
  rw [capturedHost_nil r.headers hnone]
  unfold striCmpEq
  rw [beq_eq_false_iff_ne]
  simpa [List.map_eq_nil_iff] using hts

/-- Witness for C4: a request whose Host value differs from the target is
rejected. -/
theorem c4_no_match_characterization_witness :
    requestWF ⟨strB "GET / HTTP/1.1", [(strB "Host", strB "other.example")]⟩ ∧
    MatchesB (renderRequest ⟨strB "GET / HTTP/1.1", [(strB "Host", strB "other.example")]⟩)
      (strB "blocked.example") = false :=
  ⟨by decide, c4_no_match_characterization.1 _ _ (by decide) (by decide)⟩

/-- Counterexample to C4 as stated: this payload contains no header field
named host in any letter case, so it has no Host header at all, yet with an
empty configured target Matches returns true. -/
theorem c4_cex :
    ((http_parser_execute (strB "GET / HTTP/1.1\r\nX: y\r\n\r\n")).all
      (fun e => match e with
        | HttpEvent.headerField n => !striCmpEq n (strB "host")
        | _ => true) = true) ∧
    Matches "GET / HTTP/1.1\r\nX: y\r\n\r\n" "" = true := by
  refine ⟨by decide, by decide⟩

/-- Claim C5: for every payload on which the parser never fires the
headers-complete event (in particular every truncated segment), Matches
returns false.  The embedded function is total by construction, so the call
always completes and the error branch yields false. -/
theorem c5_truncated_no_match (data target : Bytes)
    (h : HttpEvent.headersComplete ∉ http_parser_execute data) :
    MatchesB data target = false := by
  rw [MatchesB_eq, runCallbacks_no_complete _ _ h]
  rfl

/-- Witness for C5: a request cut off inside its Host header line is not
matched even though the target would agree. -/
theorem c5_truncated_no_match_witness :
    (HttpEvent.headersComplete ∉ http_parser_execute (strB "GET / HTTP/1.1\r\nHost: a")) ∧
    MatchesB (strB "GET / HTTP/1.1\r\nHost: a") (strB "a") = false :=
  ⟨by decide, c5_truncated_no_match _ _ (by decide)⟩

/-- Claim C10, amended: with an empty configured target, every well-formed
request whose header block completes and that contains no header field whose
name begins with host (case-insensitively) is matched, because the captured
buffer is reset to empty and compares equal to the empty target.  The
unamended claim, which only excludes a Host header, fails on a request
carrying a field such as Hostname (see the counterexample). -/
theorem c10_empty_target (r : HttpRequest) (hwf : requestWF r)
    (hnone : ∀ p ∈ r.headers, isHostField p.1 = false) :
    MatchesB (renderRequest r) [] = true := by
  rw [MatchesB_render r [] hwf, capturedHost_nil r.headers hnone]
  rfl

/-- Witness for C10: a completed request with a single unrelated header is
matched against the empty target. -/
theorem c10_empty_target_witness :
    requestWF ⟨strB "GET / HTTP/1.1", [(strB "X", strB "y")]⟩ ∧
    MatchesB (renderRequest ⟨strB "GET / HTTP/1.1", [(strB "X", strB "y")]⟩) [] = true :=
  ⟨by decide, c10_empty_target _ (by decide) (by decide)⟩

/-- Counterexample to C10 as stated: this payload completes its header block
and contains no Host header (its only field is Hostname, which is not a Host
header), yet with the empty target Matches returns false, because Hostname
passes the four-byte host test and its value x is captured. -/
theorem c10_cex :
    HttpEvent.headersComplete ∈
      http_parser_execute (strB "GET / HTTP/1.1\r\nHostname: x\r\n\r\n") ∧
    ((http_parser_execute (strB "GET / HTTP/1.1\r\nHostname: x\r\n\r\n")).all
      (fun e => match e with
        | HttpEvent.headerField n => !striCmpEq n (strB "Host")
        | _ => true) = true) ∧
    Matches "GET / HTTP/1.1\r\nHostname: x\r\n\r\n" "" = false := by
  refine ⟨by decide, by decide, by decide⟩

/-- Claim C7, amended: for every configured replacement host of at most
1023 bytes (the bound within which the startup strcpy of line 111 and the
2048-byte response buffer are in-bounds; a longer host is undefined
behavior in the source, not a template) containing no carriage-return
byte — including the empty string — the Redirect template built at startup
declares Content-Length 3 and its HTTP body (the bytes after the first
blank line) is exactly the three bytes 302, so the declared length equals
the actual body length.  The unamended claim, which admits every host
string, fails already for a short in-bounds host containing a CRLF pair
(see the counterexample): the startup code concatenates the host into the
Location header unescaped, so such a host injects an early blank line and
changes the body. -/
theorem c7_redirect_body (nh : Bytes) (_hin : nh.length ≤ 1023)
    (h13 : ∀ c ∈ nh, c ≠ 13) :
    httpBody (responseData nh) = strB "302" ∧
    declaredContentLength (responseData nh) = some 3 := by
  have hsplit : responseData nh =
      strB "HTTP/1.1 302 Found" ++ 13 :: 10 ::
        (strB "Content-Type: text/html; charset=utf-8" ++ 13 :: 10 ::
          (strB "Location: http://" ++ (nh ++
            strB "\r\nDate: Mon, 09 Jul 2018 06:27:33 GMT\r\nContent-Length:3\r\n\r\n302"))) := by
    have hpre : strB "HTTP/1.1 302 Found\r\nContent-Type: text/html; charset=utf-8\r\nLocation: http://" =
        strB "HTTP/1.1 302 Found" ++ 13 :: 10 ::
          (strB "Content-Type: text/html; charset=utf-8" ++ 13 :: 10 ::
            strB "Location: http://") := by decide
    rw [responseData, hpre]
    simp [List.append_assoc]
  constructor
  · unfold httpBody
    rw [hsplit, splitBlank_append_ne _ _ (by decide),
      splitBlank_cons13 _ (by rw [List.take_append_of_le_length (by decide)]; decide),
      splitBlank_append_ne _ _ (by decide),
      splitBlank_cons13 _ (by rw [List.take_append_of_le_length (by decide)]; decide),
      splitBlank_append_ne _ _ (by decide),
      splitBlank_append_ne _ _ h13,
      show splitBlank
          (strB "\r\nDate: Mon, 09 Jul 2018 06:27:33 GMT\r\nContent-Length:3\r\n\r\n302") =
        some (strB "\r\nDate: Mon, 09 Jul 2018 06:27:33 GMT\r\nContent-Length:3",
          strB "302") from by decide]
    rfl
  · unfold declaredContentLength clPat
    rw [hsplit, findHeaderValue_append_ne _ _ _ (by decide),
      findHeaderValue_skip _ _ _ (by decide) (by decide) (by decide),
      findHeaderValue_skip _ _ _ (by decide) (by decide) (by decide),
      findHeaderValue_append_ne _ _ _ h13,
      show findHeaderValue (13 :: 10 :: strB "content-length:")
          (strB "\r\nDate: Mon, 09 Jul 2018 06:27:33 GMT\r\nContent-Length:3\r\n\r\n302") =
        some [51] from by decide]
    rfl

/-- Witness for C7 at a concrete in-bounds replacement host. -/
theorem c7_redirect_body_witness :
    ((strB "www.example.org").length ≤ 1023 ∧ (∀ c ∈ strB "www.example.org", c ≠ 13)) ∧
    httpBody (responseData (strB "www.example.org")) = strB "302" ∧
    declaredContentLength (responseData (strB "www.example.org")) = some 3 :=
  ⟨⟨by decide, by decide⟩,
    (c7_redirect_body (strB "www.example.org") (by decide) (by decide)).1,
    (c7_redirect_body (strB "www.example.org") (by decide) (by decide)).2⟩

/-- Counterexample to C7 as stated: the replacement host e CRLF CRLF x is
only 6 bytes, so every startup copy in the source stays in-bounds, yet the
template still declares Content-Length 3 while its HTTP body is no longer
the three bytes 302 — the injected blank line ends the header section
early — so the declared body length differs from the actual one. -/
theorem c7_cex :
    (strB "e\r\n\r\nx").length ≤ 1023 ∧
    httpBody (responseData (strB "e\r\n\r\nx")) ≠ strB "302" ∧
    (httpBody (responseData (strB "e\r\n\r\nx"))).length ≠ 3 ∧
    declaredContentLength (responseData (strB "e\r\n\r\nx")) = some 3 := by
  refine ⟨by decide, by decide, by decide, by decide⟩

/-- Witness for C9: an in-bounds replacement host of 500 bytes gives a
679-byte Redirect packet, above a 576-byte path MTU, and the packet is
still handed to Send with its whole payload. -/
theorem c9_no_mtu_check_witness :
    ((List.replicate 500 (97 : Nat)).length ≤ 1023 ∧
      576 < 40 + (responseData (List.replicate 500 97)).length) ∧
    (hijackSends (fun _ _ => 0) (fun _ _ => 0) mkReset
        (mkBlockpage 80 (responseData (List.replicate 500 97))) mkFinish
        ⟨1, 2, 3, 1000, 4000, 50⟩ 80 (responseData (List.replicate 500 97))).2.1.data =
      responseData (List.replicate 500 97) := by
  have hrep : (List.replicate 500 (97 : Nat)).length = 500 := by
    rw [List.length_replicate]
  have hlen : (responseData (List.replicate 500 97)).length = 639 := by
    rw [responseData_length, hrep]
  exact ⟨⟨by omega, by omega⟩,
    (c9_no_mtu_check (fun _ _ => 0) (fun _ _ => 0) mkReset mkFinish
      ⟨1, 2, 3, 1000, 4000, 50⟩ 80 (List.replicate 500 97)
      (by omega) (by omega)).1⟩

/-- Counterexample to C9 as stated: the 500-byte replacement host is within
every buffer bound of the source (at most 1023 bytes), and for this
observation the computed total length of the Redirect packet is
40 + 639 = 679 bytes, exceeding a 576-byte path MTU (the classic minimum
IPv4 path MTU), yet nothing fails: the stamping path has no error result,
and the oversized packet is handed to Send with its full payload and total
length 679. -/
theorem c9_cex :
    (List.replicate 500 (97 : Nat)).length ≤ 1023 ∧
    576 < 40 + (responseData (List.replicate 500 97)).length ∧
    (hijackSends (fun _ _ => 0) (fun _ _ => 0) mkReset
        (mkBlockpage 80 (responseData (List.replicate 500 97))) mkFinish
        ⟨9, 8, 7, 1000, 4000, 50⟩ 80 (responseData (List.replicate 500 97))).2.1.data =
      responseData (List.replicate 500 97) ∧
    (hijackSends (fun _ _ => 0) (fun _ _ => 0) mkReset
        (mkBlockpage 80 (responseData (List.replicate 500 97))) mkFinish
        ⟨9, 8, 7, 1000, 4000, 50⟩ 80
        (responseData (List.replicate 500 97))).2.1.packet.ip.Length = 679 := by
  have hrep : (List.replicate 500 (97 : Nat)).length = 500 := by
    rw [List.length_replicate]
  have hlen : (responseData (List.replicate 500 97)).length = 639 := by
    rw [responseData_length, hrep]
  refine ⟨by omega, by omega, rfl, ?_⟩
  show blockpage_len (responseData (List.replicate 500 97)) = 679
  unfold blockpage_len
  rw [hlen]
